import Mathlib

/-!
Verification of the link-checking core of htmltest (package htmltest,
file check-link.go): the router CheckLink, the external checker
CheckExternal, the internal checkers CheckInternal/CheckFile, and the
mailto/tel checkers.

The embedding is a shallow one.  Pure Go helpers become Lean functions.
Effects are made explicit: every checker returns the list of issues it
appended to the issue sink, the updated reference cache, and the list of
network requests and filesystem stat calls it performed.  External
collaborators (the URL parser of htmldoc, the HTTP client, os.Stat,
http.StatusText, htmldoc.AbsolutePath and friends) are gathered into an
Env parameter; theorems quantify over it.  Repository helpers that live
outside check-link.go (extractAttrs, attrPresent, the refcache package,
htmldoc.NewReference, checkErr) are modelled from the specification and
marked as such in their doc comments.

Filesystem paths are represented by their rootedness flag plus the list
of slash-separated components; Go's lexical path.Join/path.Clean is
embedded as joining component lists followed by lexical cleaning
(dropping empty and "." components and resolving "..").
-/

namespace Htmltest

/-- Severity levels of the issues package, the two used by check-link.go
(issues.DEBUG and issues.ERROR). -/
inductive Level where
  | DEBUG
  | ERROR
deriving DecidableEq

/-- One HTML attribute, the Key/Val pair of html.Attribute. -/
structure Attr where
  key : String
  val : String
deriving DecidableEq

/-- The fields of an html.Node read by check-link.go: Data (the tag name,
for example "a" or "link") and the attribute list Attr. -/
structure Node where
  data : String
  attr : List Attr
deriving DecidableEq

/-- The htmldoc.Document as used by check-link.go: only its identity
(its site-relative path) matters for issue attribution. -/
structure Document where
  path : String
deriving DecidableEq

/-- A filesystem/URL path, represented lexically: whether it is rooted
(starts with a slash) and its list of slash-separated components. -/
structure PathC where
  rooted : Bool
  comps : List String
deriving DecidableEq

/-- The components of an htmldoc.Reference read by check-link.go: the
owning Document, the raw href it was built from, and the parsed URL
parts it exposes (Scheme, Path, and URL.Opaque, here called payload). -/
structure Reference where
  document : Document
  node : Node
  href : String
  scheme : String
  path : String
  payload : String
deriving DecidableEq

/-- One reported finding, the fields of issues.Issue set by
check-link.go: Level, Message, and at most one of Document/Reference. -/
structure Issue where
  level : Level
  message : String
  document : Option Document
  reference : Option Reference
deriving DecidableEq

/-- The reference cache of the refcache package: a run-scoped mapping
from normalized URL string to the HTTP status last observed for it. -/
abbrev Cache := List (String × Nat)

/-- Result of an os.Stat call as consumed by CheckFile: the path does
not exist, some other stat error occurred, or the path exists and is a
directory or a regular file. -/
inductive StatResult where
  | notExist
  | otherErr
  | isDir
  | isFile
deriving DecidableEq

/-- The parsed URL parts a Reference exposes to check-link.go. -/
structure RefParts where
  scheme : String
  path : String
  payload : String
deriving DecidableEq

/-- The configuration fields of Opts read by check-link.go. -/
structure Options where
  EnforceHTTPS : Bool
  CheckExternal : Bool
  CheckInternal : Bool
  CheckMailto : Bool
  CheckTel : Bool
  StripQueryString : Bool
  StripQueryExcludes : List String
  DirectoryPath : PathC
  DirectoryIndex : String
deriving DecidableEq

/-- External collaborators of check-link.go, as a record of functions:
the URL parser behind htmldoc.NewReference, htmldoc.URLString,
htmldoc.URLStripQueryString, the HTTP client (httpClient.Do, returning
either an error string or a status code), http.StatusText, os.Stat, and
htmldoc.AbsolutePath. -/
structure Env where
  parseRef : String → RefParts
  urlString : Reference → String
  stripQuery : String → String
  probe : String → Except String Nat
  statusText : Nat → String
  stat : PathC → StatResult
  absolutePath : Reference → PathC

/-- Result of CheckExternal: the issues appended, the cache after the
call, and the URLs fetched over the network during the call. -/
structure ExtOut where
  issues : List Issue
  cache : Cache
  network : List String
deriving DecidableEq

/-- Result of CheckFile/CheckInternal: the issues appended, the paths
passed to os.Stat, and whether checkErr aborted the run (fatal). -/
structure FileOut where
  issues : List Issue
  stats : List PathC
  fatal : Bool
deriving DecidableEq

/-- Result of CheckLink: issues appended, cache after the call, network
requests, stat calls, and whether the run was fatally aborted. -/
structure LinkOut where
  issues : List Issue
  cache : Cache
  network : List String
  stats : List PathC
  fatal : Bool
deriving DecidableEq

/-- Whether the first character list is a leading segment of the second. -/
def listHasPre : List Char → List Char → Bool
  | [], _ => true
  | _ :: _, [] => false
  | a :: as, b :: bs => a == b && listHasPre as bs

/-- Whether sub occurs contiguously inside the second character list. -/
def listInf (sub : List Char) : List Char → Bool
  | [] => sub.isEmpty
  | c :: rest => listHasPre sub (c :: rest) || listInf sub rest

/-- Go's strings.Contains: sub occurs as a contiguous substring of s. -/
def strContains (s sub : String) : Bool :=
  listInf sub.data s.data

/-- Go's strings.HasSuffix: suf is a trailing segment of s. -/
def strHasSuf (s suf : String) : Bool :=
  listHasPre suf.data.reverse s.data.reverse

/-- Go's strings.TrimPrefix: remove pre from the front of s when it is
a prefix of s, otherwise return s unchanged. -/
def stripPre (pre s : String) : String :=
  if s.startsWith pre then s.drop pre.length else s

/-- Modelled from the spec: the repository helper InList (not under
src/) reports whether the string is an element of the list. -/
def InList (list : List String) (s : String) : Bool :=
  list.contains s

/-- Modelled from the spec: the repository helper attrPresent (not
under src/) reports whether an attribute with the given key occurs in
the node's attribute list. -/
def attrPresent (attrs : List Attr) (name : String) : Bool :=
  attrs.any fun a => a.key == name

/-- Modelled from the spec: the repository helper extractAttrs (not
under src/) builds a Go map from the requested attribute keys to their
values; looking up a key that is absent from the node (or was not
requested) yields the Go zero value "". -/
def extractAttrs (attrs : List Attr) (keys : List String) : String → String :=
  fun key =>
    if keys.contains key then
      match attrs.find? (fun a => a.key == key) with
      | some a => a.val
      | none => ""
    else ""

/-- Modelled from the spec: htmldoc.NewReference (not under src/) builds
a Reference from a document, a node and the raw href; the Reference
stores the parsed scheme, path and scheme-specific payload (URL.Opaque)
the URL-parsing collaborator recognizes in the href. -/
def NewReference (env : Env) (document : Document) (node : Node) (href : String) :
    Reference :=
  ⟨document, node, href,
   (env.parseRef href).scheme, (env.parseRef href).path, (env.parseRef href).payload⟩

/-- Modelled from the spec: refcache.CachedURLStatus (not under src/)
returns the status cached for the URL, with 0 as the sentinel for
"not yet known". -/
def CachedURLStatus (cache : Cache) (url : String) : Nat :=
  match cache.lookup url with
  | some s => s
  | none => 0

/-- Modelled from the spec: refcache.SetCachedURLStatus (not under
src/) records the status observed for the URL for the rest of the
run. -/
def SetCachedURLStatus (cache : Cache) (url : String) (status : Nat) : Cache :=
  (url, status) :: cache

/-- One step of Go's lexical path.Clean over components: empty and "."
components are dropped; ".." pops the previous component when one is
poppable, is dropped at the root of a rooted path, and is kept at the
front of an unrooted path. -/
def cleanStep (rooted : Bool) (out : List String) (c : String) : List String :=
  if c = "" ∨ c = "." then out
  else if c = ".." then
    if out ≠ [] ∧ out.getLast? ≠ some ".." then out.dropLast
    else if rooted then out else out ++ [".."]
  else out ++ [c]

/-- Go's path.Clean on a component list: process the components left to
right with cleanStep. -/
def cleanComps (rooted : Bool) (comps : List String) : List String :=
  List.foldl (cleanStep rooted) [] comps

/-- Split a character list into slash-separated components, as Go's
path functions treat the bytes of a path string. -/
def splitComps : List Char → List String
  | [] => [""]
  | c :: rest =>
    match splitComps rest with
    | [] => [""]
    | s :: ss => if c = '/' then "" :: s :: ss else String.mk (c :: s.data) :: ss

/-- Go's path.Join of a path and a further path string (as in
path.Join(fPath, Opts.DirectoryIndex)): concatenate and clean. -/
def pathJoin (p : PathC) (s : String) : PathC :=
  ⟨p.rooted, cleanComps p.rooted (p.comps ++ splitComps s.data)⟩

/-- Go's path.Join of two paths (as in path.Join(Opts.DirectoryPath,
fPath)): concatenate the component lists and clean; the result is
rooted exactly when the left path is. -/
def pathJoinP (a b : PathC) : PathC :=
  ⟨a.rooted, cleanComps a.rooted (a.comps ++ b.comps)⟩

/-- Iterated form of the recursive step of CheckFile: the target path
after k directory-index resolutions, each one a
path.Join(fPath, Opts.DirectoryIndex). -/
def iterJoin (idx : String) (p : PathC) : Nat → PathC
  | 0 => p
  | k + 1 => pathJoin (iterJoin idx p k) idx

/-- The normalized URL string CheckExternal uses as cache key and
request target: htmldoc.URLString, query-stripped when
StripQueryString is set and the URL is not excluded. -/
def normalizedURL (env : Env) (opts : Options) (ref : Reference) : String :=
  let urlStr := env.urlString ref
  if opts.StripQueryString ∧ ¬ InList opts.StripQueryExcludes urlStr then
    env.stripQuery urlStr
  else urlStr

/-- The status-code switch at the end of CheckExternal: 200 (StatusOK)
and 206 (StatusPartialContent) produce a DEBUG issue carrying the
status text, every other status an ERROR issue carrying the status
text. -/
def statusIssue (env : Env) (ref : Reference) (statusCode : Nat) : Issue :=
  if statusCode = 200 then ⟨Level.DEBUG, env.statusText statusCode, none, some ref⟩
  else if statusCode = 206 then ⟨Level.DEBUG, env.statusText statusCode, none, some ref⟩
  else ⟨Level.ERROR, env.statusText statusCode, none, some ref⟩

/-- CheckExternal from check-link.go: skip when disabled; compute the
normalized URL; use a non-zero cached status without touching the
network; otherwise perform the probe, classifying transport errors by
their text ("dial tcp" errors have the redundant request prefix
trimmed, "Client.Timeout" errors become a fixed message, anything else
is reported raw) without caching, and caching then classifying the
status of a received response. -/
def CheckExternal (env : Env) (opts : Options) (cache : Cache) (ref : Reference) :
    ExtOut :=
  if opts.CheckExternal = false then
    ⟨[⟨Level.DEBUG, "skipping", none, some ref⟩], cache, []⟩
  else
    let urlStr := normalizedURL env opts ref
    if CachedURLStatus cache urlStr ≠ 0 then
      ⟨[statusIssue env ref (CachedURLStatus cache urlStr)], cache, []⟩
    else
      match env.probe urlStr with
      | Except.error e =>
        if strContains e "dial tcp" then
          ⟨[⟨Level.ERROR, stripPre ("Get " ++ urlStr ++ ": dial tcp: lookup ") e,
             none, some ref⟩], cache, [urlStr]⟩
        else if strContains e "Client.Timeout" then
          ⟨[⟨Level.ERROR, "request exceeded our ExternalTimeout", none, some ref⟩],
           cache, [urlStr]⟩
        else
          ⟨[⟨Level.ERROR, e, none, some ref⟩], cache, [urlStr]⟩
      | Except.ok status =>
        ⟨[statusIssue env ref status], SetCachedURLStatus cache urlStr status, [urlStr]⟩

/-- CheckFile from check-link.go, with an explicit recursion budget
(the Go function recurses without one): join the document root with the
target path and stat it; a missing target is a non-fatal ERROR, any
other stat error makes checkErr abort the run (modelled by the fatal
flag, checkErr not being under src/), a directory is an ERROR when the
reference's path lacks a trailing slash and otherwise yields a DEBUG
issue and a recursive check of the directory's DirectoryIndex, and a
regular file passes silently. -/
def CheckFile (env : Env) (opts : Options) (ref : Reference) :
    Nat → PathC → Option FileOut
  | 0, _ => none
  | fuel + 1, fPath =>
    let checkPath := pathJoinP opts.DirectoryPath fPath
    match env.stat checkPath with
    | StatResult.notExist =>
      some ⟨[⟨Level.ERROR, "target does not exist", none, some ref⟩], [checkPath], false⟩
    | StatResult.otherErr =>
      some ⟨[], [checkPath], true⟩
    | StatResult.isDir =>
      if strHasSuf ref.path "/" = false then
        some ⟨[⟨Level.ERROR, "target is a directory, href lacks trailing slash",
               none, some ref⟩], [checkPath], false⟩
      else
        match CheckFile env opts ref fuel (pathJoin fPath opts.DirectoryIndex) with
        | none => none
        | some out =>
          some ⟨⟨Level.DEBUG, "target is a directory", none, some ref⟩ :: out.issues,
                checkPath :: out.stats, out.fatal⟩
    | StatResult.isFile =>
      some ⟨[], [checkPath], false⟩

/-- CheckInternal from check-link.go: skip when disabled, otherwise
check the file at the reference's absolute path. -/
def CheckInternal (env : Env) (opts : Options) (ref : Reference) (fuel : Nat) :
    Option FileOut :=
  if opts.CheckInternal = false then
    some ⟨[⟨Level.DEBUG, "skipping", none, some ref⟩], [], false⟩
  else
    CheckFile env opts ref fuel (env.absolutePath ref)

/-- CheckMailto from check-link.go: skip when disabled; an empty
URL.Opaque is an ERROR, an Opaque without "@" is an ERROR, anything
else passes. -/
def CheckMailto (opts : Options) (ref : Reference) : List Issue :=
  if opts.CheckMailto = false then []
  else if ref.payload.length = 0 then
    [⟨Level.ERROR, "mailto is empty", none, some ref⟩]
  else if strContains ref.payload "@" = false then
    [⟨Level.ERROR, "contains an invalid email address", none, some ref⟩]
  else []

/-- CheckTel from check-link.go: skip when disabled; an empty
URL.Opaque is an ERROR, anything else passes. -/
def CheckTel (opts : Options) (ref : Reference) : List Issue :=
  if opts.CheckTel = false then []
  else if ref.payload.length = 0 then
    [⟨Level.ERROR, "tel is empty", none, some ref⟩]
  else []

/-- The scheme switch at the end of CheckLink: http runs the external
check, preceded by an enforcement ERROR when EnforceHTTPS is set; https
runs the external check; file runs the internal check; mailto and tel
run their syntactic checks; any other scheme does nothing. -/
def routeReference (env : Env) (opts : Options) (fuel : Nat) (cache : Cache)
    (ref : Reference) : Option LinkOut :=
  match ref.scheme with
  | "http" =>
    let ext := CheckExternal env opts cache ref
    some ⟨(if opts.EnforceHTTPS then
             [⟨Level.ERROR, "is not an HTTPS target", none, some ref⟩]
           else []) ++ ext.issues,
          ext.cache, ext.network, [], false⟩
  | "https" =>
    let ext := CheckExternal env opts cache ref
    some ⟨ext.issues, ext.cache, ext.network, [], false⟩
  | "file" =>
    match CheckInternal env opts ref fuel with
    | none => none
    | some f => some ⟨f.issues, cache, [], f.stats, f.fatal⟩
  | "mailto" => some ⟨CheckMailto opts ref, cache, [], [], false⟩
  | "tel" => some ⟨CheckTel opts ref, cache, [], [], false⟩
  | _ => some ⟨[], cache, [], [], false⟩

/-- The attrs map CheckLink builds at entry:
extractAttrs(node.Attr, ["href", "rel", "data-proofer-ignore"]). -/
def linkAttrs (node : Node) : String → String :=
  extractAttrs node.attr ["href", "rel", "data-proofer-ignore"]

/-- CheckLink from check-link.go: the five pre-checks in source order
(canonical rel, data-proofer-ignore, missing href on a/link nodes,
blank href, bare "#"), then the reference is built and routed by
scheme. -/
def CheckLink (env : Env) (opts : Options) (fuel : Nat) (cache : Cache)
    (document : Document) (node : Node) : Option LinkOut :=
  let attrs := linkAttrs node
  if attrs "rel" = "canonical" then
    some ⟨[], cache, [], [], false⟩
  else if attrPresent node.attr "data-proofer-ignore" = true then
    some ⟨[], cache, [], [], false⟩
  else if attrPresent node.attr "href" = false ∧ node.data = "a" then
    some ⟨[⟨Level.DEBUG, "anchor without href", some document, none⟩],
          cache, [], [], false⟩
  else if attrPresent node.attr "href" = false ∧ node.data = "link" then
    some ⟨[⟨Level.ERROR, "link tag missing href", some document, none⟩],
          cache, [], [], false⟩
  else
    let ref := NewReference env document node (attrs "href")
    if attrs "href" = "" then
      some ⟨[⟨Level.ERROR, "href blank", none, some ref⟩], cache, [], [], false⟩
    else if attrs "href" = "#" then
      some ⟨[⟨Level.ERROR, "empty hash", none, some ref⟩], cache, [], [], false⟩
    else
      routeReference env opts fuel cache ref

/-- Sample document used to evaluate the checkers on concrete inputs. -/
def docA : Document := ⟨"doc.html"⟩

/-- Sample URL-parsing collaborator recognizing a handful of hrefs. -/
def parseRefA (href : String) : RefParts :=
  if href = "http://x" then ⟨"http", "/x", ""⟩
  else if href = "https://x" then ⟨"https", "/x", ""⟩
  else if href = "ftp://x" then ⟨"ftp", "/x", ""⟩
  else if href = "mailto:a@b" then ⟨"mailto", "", "a@b"⟩
  else ⟨"", "", ""⟩

/-- Sample status-text collaborator covering the statuses probed. -/
def statusTextA (s : Nat) : String :=
  if s = 200 then "OK"
  else if s = 206 then "Partial Content"
  else if s = 404 then "Not Found"
  else ""

/-- Sample filesystem: under the root "site" there are a directory
"dir" containing "index.html", a regular file "file.txt", and a path
"bad" on which stat fails with a non-notExist error. -/
def statA (p : PathC) : StatResult :=
  if p.comps = ["site", "dir"] then StatResult.isDir
  else if p.comps = ["site", "dir", "index.html"] then StatResult.isFile
  else if p.comps = ["site", "file.txt"] then StatResult.isFile
  else if p.comps = ["site", "bad"] then StatResult.otherErr
  else StatResult.notExist

/-- Sample environment whose probe answers 404 for every URL. -/
def envA : Env :=
  ⟨parseRefA, fun r => r.href, fun s => s, fun _ => Except.ok 404,
   statusTextA, statA, fun r => ⟨false, [r.path]⟩⟩

/-- Sample environment whose probe fails with a DNS lookup error. -/
def envB : Env :=
  ⟨parseRefA, fun r => r.href, fun s => s,
   fun u => Except.error ("Get " ++ u ++ ": dial tcp: lookup nosuchhost: no such host"),
   statusTextA, statA, fun r => ⟨false, [r.path]⟩⟩

/-- Sample environment whose filesystem is empty: every stat call
reports a missing target. -/
def envT : Env :=
  ⟨parseRefA, fun r => r.href, fun s => s, fun _ => Except.ok 404,
   statusTextA, fun _ => StatResult.notExist, fun r => ⟨false, [r.path]⟩⟩

/-- Sample option set with every check enabled and HTTPS enforced. -/
def optsA : Options :=
  ⟨true, true, true, true, true, false, [], ⟨false, ["site"]⟩, "index.html"⟩

/-- Sample references for driving the checkers directly. -/
def refHttp : Reference := ⟨docA, ⟨"a", [⟨"href", "http://x"⟩]⟩, "http://x", "http", "/x", ""⟩

/-- Sample reference to the same normalized URL as refHttp but from a
different node. -/
def refHttp2 : Reference := ⟨docA, ⟨"a", [⟨"href", "http://x"⟩, ⟨"id", "b"⟩]⟩, "http://x", "http", "/x", ""⟩

/-- Sample reference whose path carries a trailing slash. -/
def refDir : Reference := ⟨docA, ⟨"a", [⟨"href", "dir/"⟩]⟩, "dir/", "file", "dir/", ""⟩

/-- Sample reference whose path lacks a trailing slash. -/
def refNoSlash : Reference := ⟨docA, ⟨"a", [⟨"href", "dir"⟩]⟩, "dir", "file", "dir", ""⟩

/-- Sample nodes exercising each pre-check of CheckLink. -/
def nodeCanon : Node := ⟨"a", [⟨"href", "http://x"⟩, ⟨"rel", "canonical"⟩]⟩

/-- Node carrying the ignore marker attribute. -/
def nodeIgnore : Node := ⟨"a", [⟨"href", "http://x"⟩, ⟨"data-proofer-ignore", ""⟩]⟩

/-- Anchor node with no href attribute. -/
def nodeBareA : Node := ⟨"a", []⟩

/-- Link node with no href attribute. -/
def nodeBareLink : Node := ⟨"link", []⟩

/-- Anchor node with an explicitly empty href. -/
def nodeBlank : Node := ⟨"a", [⟨"href", ""⟩]⟩

/-- Anchor node whose href is exactly "#". -/
def nodeHash : Node := ⟨"a", [⟨"href", "#"⟩]⟩

/-- Non-anchor, non-link node with no href attribute. -/
def nodeDiv : Node := ⟨"div", []⟩

/-- Anchor node with an http href. -/
def nodeHttp : Node := ⟨"a", [⟨"href", "http://x"⟩]⟩

/-- Anchor node with an href of unrecognized scheme. -/
def nodeFtp : Node := ⟨"a", [⟨"href", "ftp://x"⟩]⟩

lemma find?_eq_none_of_any_eq_false {k : String} :
    ∀ (attrs : List Attr), attrs.any (fun a => a.key == k) = false →
      attrs.find? (fun a => a.key == k) = none := by
  intro attrs h
  induction attrs with
  | nil => rfl
  | cons a as ih =>
    rw [List.any_cons, Bool.or_eq_false_iff] at h
    rw [List.find?_cons, h.1]
    exact ih h.2

lemma extractAttrs_absent (attrs : List Attr) (keys : List String) (k : String)
    (h : attrPresent attrs k = false) : extractAttrs attrs keys k = "" := by
  unfold attrPresent at h
  unfold extractAttrs
  rw [find?_eq_none_of_any_eq_false attrs h]
  split <;> rfl

lemma checkExternal_one_issue (env : Env) (opts : Options) (cache : Cache)
    (ref : Reference) : (CheckExternal env opts cache ref).issues.length = 1 := by
  simp only [CheckExternal]
  split
  · rfl
  · split
    · rfl
    · split
      · split
        · rfl
        · split <;> rfl
      · rfl

/-- C1: the five pre-checks of CheckLink run in source order, each
terminal: a canonical rel skips silently; an ignore marker skips
silently; a missing href yields one DEBUG "anchor without href" on an
anchor and one ERROR "link tag missing href" on a link node and falls
through otherwise; an empty href yields one ERROR "href blank"; an href
of exactly "#" yields one ERROR "empty hash"; and only a reference
passing all five reaches routeReference.  In every pre-check case the
cache is unchanged and no network or filesystem access happens. -/
theorem checkLink_prechecks_order (env : Env) (opts : Options) (fuel : Nat)
    (cache : Cache) (document : Document) (node : Node) :
    (linkAttrs node "rel" = "canonical" →
      CheckLink env opts fuel cache document node = some ⟨[], cache, [], [], false⟩) ∧
    (linkAttrs node "rel" ≠ "canonical" →
     attrPresent node.attr "data-proofer-ignore" = true →
      CheckLink env opts fuel cache document node = some ⟨[], cache, [], [], false⟩) ∧
    (linkAttrs node "rel" ≠ "canonical" →
     attrPresent node.attr "data-proofer-ignore" = false →
     attrPresent node.attr "href" = false → node.data = "a" →
      CheckLink env opts fuel cache document node =
        some ⟨[⟨Level.DEBUG, "anchor without href", some document, none⟩],
              cache, [], [], false⟩) ∧
    (linkAttrs node "rel" ≠ "canonical" →
     attrPresent node.attr "data-proofer-ignore" = false →
     attrPresent node.attr "href" = false → node.data = "link" →
      CheckLink env opts fuel cache document node =
        some ⟨[⟨Level.ERROR, "link tag missing href", some document, none⟩],
              cache, [], [], false⟩) ∧
    (linkAttrs node "rel" ≠ "canonical" →
     attrPresent node.attr "data-proofer-ignore" = false →
     (attrPresent node.attr "href" = true ∨ (node.data ≠ "a" ∧ node.data ≠ "link")) →
     linkAttrs node "href" = "" →
      CheckLink env opts fuel cache document node =
        some ⟨[⟨Level.ERROR, "href blank", none,
               some (NewReference env document node (linkAttrs node "href"))⟩],
              cache, [], [], false⟩) ∧
    (linkAttrs node "rel" ≠ "canonical" →
     attrPresent node.attr "data-proofer-ignore" = false →
     (attrPresent node.attr "href" = true ∨ (node.data ≠ "a" ∧ node.data ≠ "link")) →
     linkAttrs node "href" = "#" →
      CheckLink env opts fuel cache document node =
        some ⟨[⟨Level.ERROR, "empty hash", none,
               some (NewReference env document node (linkAttrs node "href"))⟩],
              cache, [], [], false⟩) ∧
    (linkAttrs node "rel" ≠ "canonical" →
     attrPresent node.attr "data-proofer-ignore" = false →
     (attrPresent node.attr "href" = true ∨ (node.data ≠ "a" ∧ node.data ≠ "link")) →
     linkAttrs node "href" ≠ "" →
     linkAttrs node "href" ≠ "#" →
      CheckLink env opts fuel cache document node =
        routeReference env opts fuel cache
          (NewReference env document node (linkAttrs node "href"))) := by
  refine ⟨?_, ?_, ?_, ?_, ?_, ?_, ?_⟩
  · intro h1
    simp [CheckLink, h1]
  · intro h1 h2
    simp [CheckLink, h1, h2]
  · intro h1 h2 h3 h4
    simp [CheckLink, h1, h2, h3, h4]
  · intro h1 h2 h3 h4
    simp [CheckLink, h1, h2, h3, h4]
  · intro h1 h2 h3 h4
    rcases h3 with h3 | h3 <;> simp [CheckLink, h1, h2, h3, h4]
  · intro h1 h2 h3 h4
    rcases h3 with h3 | h3 <;> simp [CheckLink, h1, h2, h3, h4]
  · intro h1 h2 h3 h4 h5
    rcases h3 with h3 | h3 <;> simp [CheckLink, h1, h2, h3, h4, h5]

/-- Witness for C1: the pre-check outcomes on concrete nodes, including
the fall-through of a non-anchor node into routing. -/
theorem checkLink_prechecks_order_witness :
    CheckLink envA optsA 1 [] docA nodeCanon = some ⟨[], [], [], [], false⟩ ∧
    CheckLink envA optsA 1 [] docA nodeIgnore = some ⟨[], [], [], [], false⟩ ∧
    CheckLink envA optsA 1 [] docA nodeBareA =
      some ⟨[⟨Level.DEBUG, "anchor without href", some docA, none⟩], [], [], [], false⟩ ∧
    CheckLink envA optsA 1 [] docA nodeBareLink =
      some ⟨[⟨Level.ERROR, "link tag missing href", some docA, none⟩], [], [], [], false⟩ ∧
    CheckLink envA optsA 1 [] docA nodeBlank =
      some ⟨[⟨Level.ERROR, "href blank", none,
             some (NewReference envA docA nodeBlank (linkAttrs nodeBlank "href"))⟩],
            [], [], [], false⟩ ∧
    CheckLink envA optsA 1 [] docA nodeHash =
      some ⟨[⟨Level.ERROR, "empty hash", none,
             some (NewReference envA docA nodeHash (linkAttrs nodeHash "href"))⟩],
            [], [], [], false⟩ ∧
    CheckLink envA optsA 1 [] docA nodeHttp =
      routeReference envA optsA 1 []
        (NewReference envA docA nodeHttp (linkAttrs nodeHttp "href")) :=
  ⟨(checkLink_prechecks_order envA optsA 1 [] docA nodeCanon).1 (by decide),
   (checkLink_prechecks_order envA optsA 1 [] docA nodeIgnore).2.1 (by decide) (by decide),
   (checkLink_prechecks_order envA optsA 1 [] docA nodeBareA).2.2.1
     (by decide) (by decide) (by decide) (by decide),
   (checkLink_prechecks_order envA optsA 1 [] docA nodeBareLink).2.2.2.1
     (by decide) (by decide) (by decide) (by decide),
   (checkLink_prechecks_order envA optsA 1 [] docA nodeBlank).2.2.2.2.1
     (by decide) (by decide) (Or.inl (by decide)) (by decide),
   (checkLink_prechecks_order envA optsA 1 [] docA nodeHash).2.2.2.2.2.1
     (by decide) (by decide) (Or.inl (by decide)) (by decide),
   (checkLink_prechecks_order envA optsA 1 [] docA nodeHttp).2.2.2.2.2.2
     (by decide) (by decide) (Or.inl (by decide)) (by decide) (by decide)⟩

/-- C2: for a node routed with scheme "http" while EnforceHTTPS is set,
exactly two issues are emitted, in order: the ERROR "is not an HTTPS
target" first, then the single issue of the same CheckExternal run an
https reference would get; the external check always emits exactly one
issue, so the enforcement issue never replaces it. -/
theorem checkLink_http_enforce_https (env : Env) (opts : Options) (fuel : Nat)
    (cache : Cache) (document : Document) (node : Node)
    (h1 : linkAttrs node "rel" ≠ "canonical")
    (h2 : attrPresent node.attr "data-proofer-ignore" = false)
    (h3 : attrPresent node.attr "href" = true)
    (h4 : linkAttrs node "href" ≠ "")
    (h5 : linkAttrs node "href" ≠ "#")
    (hscheme : (NewReference env document node (linkAttrs node "href")).scheme = "http")
    (henf : opts.EnforceHTTPS = true) :
    CheckLink env opts fuel cache document node =
      some ⟨⟨Level.ERROR, "is not an HTTPS target", none,
             some (NewReference env document node (linkAttrs node "href"))⟩ ::
            (CheckExternal env opts cache
              (NewReference env document node (linkAttrs node "href"))).issues,
            (CheckExternal env opts cache
              (NewReference env document node (linkAttrs node "href"))).cache,
            (CheckExternal env opts cache
              (NewReference env document node (linkAttrs node "href"))).network,
            [], false⟩ ∧
    (CheckExternal env opts cache
      (NewReference env document node (linkAttrs node "href"))).issues.length = 1 := by
  constructor
  · simp [CheckLink, h1, h2, h3, h4, h5]
    simp [routeReference, hscheme, henf]
  · exact checkExternal_one_issue env opts cache
      (NewReference env document node (linkAttrs node "href"))

/-- Witness for C2: an http anchor checked with envA (whose probe
answers 404) under optsA yields the enforcement ERROR followed by the
external check's one issue. -/
theorem checkLink_http_enforce_https_witness :
    CheckLink envA optsA 1 [] docA nodeHttp =
      some ⟨⟨Level.ERROR, "is not an HTTPS target", none,
             some (NewReference envA docA nodeHttp (linkAttrs nodeHttp "href"))⟩ ::
            (CheckExternal envA optsA []
              (NewReference envA docA nodeHttp (linkAttrs nodeHttp "href"))).issues,
            (CheckExternal envA optsA []
              (NewReference envA docA nodeHttp (linkAttrs nodeHttp "href"))).cache,
            (CheckExternal envA optsA []
              (NewReference envA docA nodeHttp (linkAttrs nodeHttp "href"))).network,
            [], false⟩ ∧
    (CheckExternal envA optsA []
      (NewReference envA docA nodeHttp (linkAttrs nodeHttp "href"))).issues.length = 1 :=
  checkLink_http_enforce_https envA optsA 1 [] docA nodeHttp
    (by decide) (by decide) (by decide) (by decide) (by decide) (by decide) (by decide)

/-- C8: a node whose reference carries a scheme outside the five
recognized ones is silently skipped by CheckLink: no issue, no network
request, no stat call, cache unchanged. -/
theorem checkLink_unknown_scheme (env : Env) (opts : Options) (fuel : Nat)
    (cache : Cache) (document : Document) (node : Node)
    (h1 : linkAttrs node "rel" ≠ "canonical")
    (h2 : attrPresent node.attr "data-proofer-ignore" = false)
    (h3 : attrPresent node.attr "href" = true)
    (h4 : linkAttrs node "href" ≠ "")
    (h5 : linkAttrs node "href" ≠ "#")
    (hs1 : (NewReference env document node (linkAttrs node "href")).scheme ≠ "http")
    (hs2 : (NewReference env document node (linkAttrs node "href")).scheme ≠ "https")
    (hs3 : (NewReference env document node (linkAttrs node "href")).scheme ≠ "file")
    (hs4 : (NewReference env document node (linkAttrs node "href")).scheme ≠ "mailto")
    (hs5 : (NewReference env document node (linkAttrs node "href")).scheme ≠ "tel") :
    CheckLink env opts fuel cache document node = some ⟨[], cache, [], [], false⟩ := by
  simp [CheckLink, h1, h2, h3, h4, h5]
  unfold routeReference
  split <;> simp_all

/-- Witness for C8: an ftp anchor is skipped with no issue and no
effect. -/
theorem checkLink_unknown_scheme_witness :
    CheckLink envA optsA 1 [] docA nodeFtp = some ⟨[], [], [], [], false⟩ :=
  checkLink_unknown_scheme envA optsA 1 [] docA nodeFtp
    (by decide) (by decide) (by decide) (by decide) (by decide)
    (by decide) (by decide) (by decide) (by decide) (by decide)

/-- C10: a node that is neither an anchor nor a link and carries no
href falls through the missing-href pre-check, gets a Reference built
from the empty string the attribute map yields for the absent key, and
receives exactly the ERROR "href blank" issue, with no further
checking. -/
theorem checkLink_no_href_other_node (env : Env) (opts : Options) (fuel : Nat)
    (cache : Cache) (document : Document) (node : Node)
    (h1 : linkAttrs node "rel" ≠ "canonical")
    (h2 : attrPresent node.attr "data-proofer-ignore" = false)
    (h3 : attrPresent node.attr "href" = false)
    (ha : node.data ≠ "a") (hl : node.data ≠ "link") :
    CheckLink env opts fuel cache document node =
      some ⟨[⟨Level.ERROR, "href blank", none,
             some (NewReference env document node "")⟩], cache, [], [], false⟩ := by
  have hblank : linkAttrs node "href" = "" :=
    extractAttrs_absent node.attr ["href", "rel", "data-proofer-ignore"] "href" h3
  simp [CheckLink, h1, h2, h3, ha, hl, hblank]

/-- Witness for C10: a bare div node gets exactly the "href blank"
ERROR carrying a Reference with empty raw href. -/
theorem checkLink_no_href_other_node_witness :
    CheckLink envA optsA 1 [] docA nodeDiv =
      some ⟨[⟨Level.ERROR, "href blank", none,
             some (NewReference envA docA nodeDiv "")⟩], [], [], [], false⟩ :=
  checkLink_no_href_other_node envA optsA 1 [] docA nodeDiv
    (by decide) (by decide) (by decide) (by decide) (by decide)

lemma statusIssue_eq (env : Env) (ref : Reference) (s : Nat) :
    statusIssue env ref s =
      ⟨if s = 200 ∨ s = 206 then Level.DEBUG else Level.ERROR,
       env.statusText s, none, some ref⟩ := by
  unfold statusIssue
  split_ifs <;> simp_all

lemma cachedURLStatus_set_same (cache : Cache) (url : String) (status : Nat) :
    CachedURLStatus (SetCachedURLStatus cache url status) url = status := by
  simp [CachedURLStatus, SetCachedURLStatus, List.lookup]

/-- C3: once the first external check of a normalized URL has received
a response (so its status is cached), any later external check of the
same normalized URL in the run touches the network zero times, leaves
the cache as it found it, and emits the status-derived issue — same
message and same level as the first check's. -/
theorem checkExternal_cache_idempotent (env : Env) (opts : Options)
    (c0 c2 : Cache) (ref1 ref2 : Reference) (s : Nat)
    (hext : opts.CheckExternal = true)
    (hmiss : CachedURLStatus c0 (normalizedURL env opts ref1) = 0)
    (hprobe : env.probe (normalizedURL env opts ref1) = Except.ok s)
    (hs : s ≠ 0)
    (hsame : normalizedURL env opts ref2 = normalizedURL env opts ref1)
    (hlater : CachedURLStatus c2 (normalizedURL env opts ref1) =
      CachedURLStatus (CheckExternal env opts c0 ref1).cache
        (normalizedURL env opts ref1)) :
    (CheckExternal env opts c0 ref1).network = [normalizedURL env opts ref1] ∧
    (CheckExternal env opts c2 ref2).network = [] ∧
    (CheckExternal env opts c2 ref2).cache = c2 ∧
    (CheckExternal env opts c2 ref2).issues = [statusIssue env ref2 s] ∧
    (CheckExternal env opts c2 ref2).issues.map Issue.message =
      (CheckExternal env opts c0 ref1).issues.map Issue.message ∧
    (CheckExternal env opts c2 ref2).issues.map Issue.level =
      (CheckExternal env opts c0 ref1).issues.map Issue.level := by
  have hout1 : CheckExternal env opts c0 ref1 =
      ⟨[statusIssue env ref1 s],
       SetCachedURLStatus c0 (normalizedURL env opts ref1) s,
       [normalizedURL env opts ref1]⟩ := by
    simp [CheckExternal, hext, hmiss, hprobe]
  have hc2 : CachedURLStatus c2 (normalizedURL env opts ref2) = s := by
    rw [hsame, hlater, hout1]
    exact cachedURLStatus_set_same c0 (normalizedURL env opts ref1) s
  have hout2 : CheckExternal env opts c2 ref2 = ⟨[statusIssue env ref2 s], c2, []⟩ := by
    simp [CheckExternal, hext, hc2, hs]
  refine ⟨by rw [hout1], by rw [hout2], by rw [hout2], by rw [hout2], ?_, ?_⟩
  · rw [hout1, hout2]
    simp [statusIssue_eq]
  · rw [hout1, hout2]
    simp [statusIssue_eq]

/-- Witness for C3: probing http://x (a 404) from an empty cache, a
second reference to the same URL is answered from the cache with the
same message and level and no network access. -/
theorem checkExternal_cache_idempotent_witness :
    (CheckExternal envA optsA [] refHttp).network = [normalizedURL envA optsA refHttp] ∧
    (CheckExternal envA optsA ((CheckExternal envA optsA [] refHttp).cache)
      refHttp2).network = [] ∧
    (CheckExternal envA optsA ((CheckExternal envA optsA [] refHttp).cache)
      refHttp2).cache = (CheckExternal envA optsA [] refHttp).cache ∧
    (CheckExternal envA optsA ((CheckExternal envA optsA [] refHttp).cache)
      refHttp2).issues = [statusIssue envA refHttp2 404] ∧
    (CheckExternal envA optsA ((CheckExternal envA optsA [] refHttp).cache)
      refHttp2).issues.map Issue.message =
      (CheckExternal envA optsA [] refHttp).issues.map Issue.message ∧
    (CheckExternal envA optsA ((CheckExternal envA optsA [] refHttp).cache)
      refHttp2).issues.map Issue.level =
      (CheckExternal envA optsA [] refHttp).issues.map Issue.level :=
  checkExternal_cache_idempotent envA optsA []
    ((CheckExternal envA optsA [] refHttp).cache) refHttp refHttp2 404
    (by decide) (by decide) rfl (by decide) (by decide) (by decide)

/-- C4: a transport error from the probe yields exactly one ERROR issue
and leaves the cache unchanged (failed probes are never cached); the
message is the error text with the "Get {url}: dial tcp: lookup "
prefix stripped when the text mentions "dial tcp", the fixed timeout
message when it mentions "Client.Timeout", and the raw error text
otherwise. -/
theorem checkExternal_transport_error (env : Env) (opts : Options)
    (cache : Cache) (ref : Reference) (e : String)
    (hext : opts.CheckExternal = true)
    (hmiss : CachedURLStatus cache (normalizedURL env opts ref) = 0)
    (hprobe : env.probe (normalizedURL env opts ref) = Except.error e) :
    CheckExternal env opts cache ref =
      ⟨[⟨Level.ERROR,
         if strContains e "dial tcp" then
           stripPre ("Get " ++ normalizedURL env opts ref ++ ": dial tcp: lookup ") e
         else if strContains e "Client.Timeout" then
           "request exceeded our ExternalTimeout"
         else e,
         none, some ref⟩], cache, [normalizedURL env opts ref]⟩ := by
  simp only [CheckExternal, hext]
  simp [hmiss, hprobe]
  split_ifs <;> simp_all

/-- Witness for C4: a DNS failure for http://x is reported as one ERROR
with the redundant request prefix stripped, and the cache stays
empty. -/
theorem checkExternal_transport_error_witness :
    CheckExternal envB optsA [] refHttp =
      ⟨[⟨Level.ERROR,
         if strContains "Get http://x: dial tcp: lookup nosuchhost: no such host"
              "dial tcp" then
           stripPre ("Get " ++ normalizedURL envB optsA refHttp ++ ": dial tcp: lookup ")
             "Get http://x: dial tcp: lookup nosuchhost: no such host"
         else if strContains "Get http://x: dial tcp: lookup nosuchhost: no such host"
              "Client.Timeout" then
           "request exceeded our ExternalTimeout"
         else "Get http://x: dial tcp: lookup nosuchhost: no such host",
         none, some refHttp⟩], [], [normalizedURL envB optsA refHttp]⟩ :=
  checkExternal_transport_error envB optsA [] refHttp
    "Get http://x: dial tcp: lookup nosuchhost: no such host"
    (by decide) (by decide) rfl

/-- C5: every status code CheckExternal obtains, whether from the cache
or from a fresh response, is classified by the single switch: 200 and
206 give one DEBUG issue carrying the status text, every other status
one ERROR issue carrying the status text; at most one network request
is made, never a retry. -/
theorem checkExternal_status_classification (env : Env) (opts : Options)
    (cache : Cache) (ref : Reference) (s : Nat)
    (hext : opts.CheckExternal = true)
    (hobt : (CachedURLStatus cache (normalizedURL env opts ref) = s ∧ s ≠ 0) ∨
      (CachedURLStatus cache (normalizedURL env opts ref) = 0 ∧
        env.probe (normalizedURL env opts ref) = Except.ok s)) :
    (CheckExternal env opts cache ref).issues =
      [⟨if s = 200 ∨ s = 206 then Level.DEBUG else Level.ERROR,
        env.statusText s, none, some ref⟩] ∧
    (CheckExternal env opts cache ref).network.length ≤ 1 := by
  rcases hobt with ⟨hc, hs⟩ | ⟨hmiss, hprobe⟩
  · have hout : CheckExternal env opts cache ref =
        ⟨[statusIssue env ref s], cache, []⟩ := by
      simp [CheckExternal, hext, hc, hs]
    rw [hout, statusIssue_eq]
    exact ⟨rfl, by simp⟩
  · have hout : CheckExternal env opts cache ref =
        ⟨[statusIssue env ref s],
         SetCachedURLStatus cache (normalizedURL env opts ref) s,
         [normalizedURL env opts ref]⟩ := by
      simp [CheckExternal, hext, hmiss, hprobe]
    rw [hout, statusIssue_eq]
    exact ⟨rfl, by simp⟩

/-- Witness for C5: the fresh 404 for http://x is classified as one
ERROR issue carrying "Not Found", with a single network request. -/
theorem checkExternal_status_classification_witness :
    (CheckExternal envA optsA [] refHttp).issues =
      [⟨if 404 = 200 ∨ 404 = 206 then Level.DEBUG else Level.ERROR,
        envA.statusText 404, none, some refHttp⟩] ∧
    (CheckExternal envA optsA [] refHttp).network.length ≤ 1 :=
  checkExternal_status_classification envA optsA [] refHttp 404
    (by decide) (Or.inr ⟨by decide, rfl⟩)

lemma cleanStep_normal (r : Bool) (out : List String) (c : String)
    (h1 : c ≠ "") (h2 : c ≠ ".") (h3 : c ≠ "..") :
    cleanStep r out c = out ++ [c] := by
  simp [cleanStep, h1, h2, h3]

lemma cleanComps_snoc (r : Bool) (xs : List String) (c : String)
    (h1 : c ≠ "") (h2 : c ≠ ".") (h3 : c ≠ "..") :
    cleanComps r (xs ++ [c]) = cleanComps r xs ++ [c] := by
  unfold cleanComps
  rw [List.foldl_append]
  simp only [List.foldl_cons, List.foldl_nil]
  exact cleanStep_normal r _ c h1 h2 h3

lemma cleanComps_append_replicate (r : Bool) (xs : List String) (c : String)
    (h1 : c ≠ "") (h2 : c ≠ ".") (h3 : c ≠ "..") (k : Nat) :
    cleanComps r (xs ++ List.replicate k c) = cleanComps r xs ++ List.replicate k c := by
  induction k with
  | zero => simp
  | succ n ih =>
    rw [List.replicate_succ' n c, ← List.append_assoc,
      cleanComps_snoc r _ c h1 h2 h3, ih, List.append_assoc,
      ← List.replicate_succ' n c]

lemma iterJoin_rooted (idx : String) (p : PathC) (k : Nat) :
    (iterJoin idx p k).rooted = p.rooted := by
  induction k with
  | zero => rfl
  | succ n ih => simp [iterJoin, pathJoin, ih]

lemma iterJoin_suffix (idx : String) (p : PathC)
    (h1 : idx ≠ "") (h2 : idx ≠ ".") (h3 : idx ≠ "..")
    (hsplit : splitComps idx.data = [idx]) (k : Nat) :
    ∃ y, (iterJoin idx p k).comps = y ++ List.replicate k idx := by
  induction k with
  | zero => exact ⟨p.comps, by simp [iterJoin]⟩
  | succ n ih =>
    obtain ⟨y, hy⟩ := ih
    refine ⟨cleanComps p.rooted y, ?_⟩
    show (pathJoin (iterJoin idx p n) idx).comps = _
    rw [pathJoin]
    simp only [hsplit, hy, iterJoin_rooted]
    rw [List.append_assoc, ← List.replicate_succ' n idx]
    exact cleanComps_append_replicate p.rooted y idx h1 h2 h3 (n + 1)

lemma joinP_iterJoin_length (D : PathC) (idx : String) (p : PathC)
    (h1 : idx ≠ "") (h2 : idx ≠ ".") (h3 : idx ≠ "..")
    (hsplit : splitComps idx.data = [idx]) (k : Nat) :
    k ≤ (pathJoinP D (iterJoin idx p k)).comps.length := by
  obtain ⟨y, hy⟩ := iterJoin_suffix idx p h1 h2 h3 hsplit k
  show k ≤ (cleanComps D.rooted (D.comps ++ (iterJoin idx p k).comps)).length
  rw [hy, ← List.append_assoc,
    cleanComps_append_replicate D.rooted (D.comps ++ y) idx h1 h2 h3 k]
  simp

lemma checkFile_fuel_sufficient (env : Env) (opts : Options) (ref : Reference)
    (B : Nat)
    (h1 : opts.DirectoryIndex ≠ "") (h2 : opts.DirectoryIndex ≠ ".")
    (h3 : opts.DirectoryIndex ≠ "..")
    (hsplit : splitComps opts.DirectoryIndex.data = [opts.DirectoryIndex])
    (hfin : ∀ q : PathC, B < q.comps.length → env.stat q = StatResult.notExist) :
    ∀ j k p, B + 1 ≤ k + j →
      CheckFile env opts ref (j + 1) (iterJoin opts.DirectoryIndex p k) ≠ none := by
  intro j
  induction j with
  | zero =>
    intro k p hk
    have hlen := joinP_iterJoin_length opts.DirectoryPath opts.DirectoryIndex p
      h1 h2 h3 hsplit k
    have hstat : env.stat
        (pathJoinP opts.DirectoryPath (iterJoin opts.DirectoryIndex p k)) =
        StatResult.notExist := by
      apply hfin
      omega
    simp [CheckFile, hstat]
  | succ n ih =>
    intro k p hk
    cases hstat : env.stat
        (pathJoinP opts.DirectoryPath (iterJoin opts.DirectoryIndex p k)) with
    | notExist => simp [CheckFile, hstat]
    | otherErr => simp [CheckFile, hstat]
    | isFile => simp [CheckFile, hstat]
    | isDir =>
      by_cases hslash : strHasSuf ref.path "/" = false
      · simp [CheckFile, hstat, hslash]
      · have hrec := ih (k + 1) p (by omega)
        have hidj : pathJoin (iterJoin opts.DirectoryIndex p k) opts.DirectoryIndex =
            iterJoin opts.DirectoryIndex p (k + 1) := rfl
        have hs : strHasSuf ref.path "/" = true := by
          revert hslash
          cases strHasSuf ref.path "/" <;> simp
        cases hcf : CheckFile env opts ref (n + 1)
            (iterJoin opts.DirectoryIndex p (k + 1)) with
        | none => exact absurd hcf hrec
        | some out =>
          rw [CheckFile]
          simp only [hstat, hs, hidj, hcf]
          simp

/-- C9: CheckFile terminates on every finite filesystem.  Finiteness is
expressed by a bound B beyond which every path is absent; provided the
configured DirectoryIndex is a genuine single path component, each
recursive call appends it to the checked path, so the checked paths
grow without bound and a budget of B + 2 stat rounds always suffices to
reach a non-existent path, a regular file, or another terminal case —
CheckFile never runs out of fuel. -/
theorem checkFile_terminates (env : Env) (opts : Options) (ref : Reference)
    (B : Nat)
    (h1 : opts.DirectoryIndex ≠ "") (h2 : opts.DirectoryIndex ≠ ".")
    (h3 : opts.DirectoryIndex ≠ "..")
    (hsplit : splitComps opts.DirectoryIndex.data = [opts.DirectoryIndex])
    (hfin : ∀ q : PathC, B < q.comps.length → env.stat q = StatResult.notExist)
    (fPath : PathC) :
    CheckFile env opts ref (B + 2) fPath ≠ none := by
  have h := checkFile_fuel_sufficient env opts ref B h1 h2 h3 hsplit hfin
    (B + 1) 0 fPath (by omega)
  simpa [iterJoin] using h

/-- Witness for C9: on an empty filesystem (every path absent, bound 0)
a check of the path x with DirectoryIndex "index.html" completes within
fuel 2. -/
theorem checkFile_terminates_witness :
    CheckFile envT optsA refDir 2 ⟨false, ["x"]⟩ ≠ none :=
  checkFile_terminates envT optsA refDir 0 (by decide) (by decide) (by decide)
    (by decide) (fun _ _ => rfl) ⟨false, ["x"]⟩

/-- C6: resolution cases of CheckFile for a target under the document
root: a missing path gives exactly one ERROR "target does not exist"
and stops; a directory reached through a reference path without
trailing slash gives exactly one ERROR "target is a directory, href
lacks trailing slash" and stops; a directory reached with trailing
slash gives a DEBUG "target is a directory" followed by the recursive
check of the directory's DirectoryIndex; a regular file gives no
issue. -/
theorem checkFile_resolution (env : Env) (opts : Options) (ref : Reference)
    (fuel : Nat) (fPath : PathC) :
    (env.stat (pathJoinP opts.DirectoryPath fPath) = StatResult.notExist →
      CheckFile env opts ref (fuel + 1) fPath =
        some ⟨[⟨Level.ERROR, "target does not exist", none, some ref⟩],
              [pathJoinP opts.DirectoryPath fPath], false⟩) ∧
    (env.stat (pathJoinP opts.DirectoryPath fPath) = StatResult.isDir →
     strHasSuf ref.path "/" = false →
      CheckFile env opts ref (fuel + 1) fPath =
        some ⟨[⟨Level.ERROR, "target is a directory, href lacks trailing slash",
               none, some ref⟩], [pathJoinP opts.DirectoryPath fPath], false⟩) ∧
    (env.stat (pathJoinP opts.DirectoryPath fPath) = StatResult.isDir →
     strHasSuf ref.path "/" = true →
      CheckFile env opts ref (fuel + 1) fPath =
        match CheckFile env opts ref fuel (pathJoin fPath opts.DirectoryIndex) with
        | none => none
        | some out =>
          some ⟨⟨Level.DEBUG, "target is a directory", none, some ref⟩ :: out.issues,
                pathJoinP opts.DirectoryPath fPath :: out.stats, out.fatal⟩) ∧
    (env.stat (pathJoinP opts.DirectoryPath fPath) = StatResult.isFile →
      CheckFile env opts ref (fuel + 1) fPath =
        some ⟨[], [pathJoinP opts.DirectoryPath fPath], false⟩) := by
  refine ⟨?_, ?_, ?_, ?_⟩
  · intro h
    simp [CheckFile, h]
  · intro h hs
    simp [CheckFile, h, hs]
  · intro h hs
    simp [CheckFile, h, hs]
  · intro h
    simp [CheckFile, h]

/-- Witness for C6: the four resolution cases on the sample filesystem
statA (missing target, directory without and with trailing slash,
regular file). -/
theorem checkFile_resolution_witness :
    CheckFile envA optsA refDir 2 ⟨false, ["missing"]⟩ =
      some ⟨[⟨Level.ERROR, "target does not exist", none, some refDir⟩],
            [pathJoinP optsA.DirectoryPath ⟨false, ["missing"]⟩], false⟩ ∧
    CheckFile envA optsA refNoSlash 2 ⟨false, ["dir"]⟩ =
      some ⟨[⟨Level.ERROR, "target is a directory, href lacks trailing slash",
             none, some refNoSlash⟩],
            [pathJoinP optsA.DirectoryPath ⟨false, ["dir"]⟩], false⟩ ∧
    CheckFile envA optsA refDir 2 ⟨false, ["dir"]⟩ =
      (match CheckFile envA optsA refDir 1 (pathJoin ⟨false, ["dir"]⟩ optsA.DirectoryIndex) with
        | none => none
        | some out =>
          some ⟨⟨Level.DEBUG, "target is a directory", none, some refDir⟩ :: out.issues,
                pathJoinP optsA.DirectoryPath ⟨false, ["dir"]⟩ :: out.stats, out.fatal⟩) ∧
    CheckFile envA optsA refDir 2 ⟨false, ["file.txt"]⟩ =
      some ⟨[], [pathJoinP optsA.DirectoryPath ⟨false, ["file.txt"]⟩], false⟩ :=
  ⟨(checkFile_resolution envA optsA refDir 1 ⟨false, ["missing"]⟩).1 (by decide),
   (checkFile_resolution envA optsA refNoSlash 1 ⟨false, ["dir"]⟩).2.1
     (by decide) (by decide),
   (checkFile_resolution envA optsA refDir 1 ⟨false, ["dir"]⟩).2.2.1
     (by decide) (by decide),
   (checkFile_resolution envA optsA refDir 1 ⟨false, ["file.txt"]⟩).2.2.2
     (by decide)⟩

/-- C7: a stat error other than non-existence makes checkErr abort the
whole run (the fatal flag): no per-link issue is emitted and checking
does not continue; only the non-existence case turns into the non-fatal
ERROR of C6. -/
theorem checkFile_stat_error_fatal (env : Env) (opts : Options) (ref : Reference)
    (fuel : Nat) (fPath : PathC)
    (hstat : env.stat (pathJoinP opts.DirectoryPath fPath) = StatResult.otherErr) :
    CheckFile env opts ref (fuel + 1) fPath =
      some ⟨[], [pathJoinP opts.DirectoryPath fPath], true⟩ := by
  simp [CheckFile, hstat]

/-- Witness for C7: a stat failure on site/bad aborts the run fatally
with no issue emitted. -/
theorem checkFile_stat_error_fatal_witness :
    CheckFile envA optsA refDir 2 ⟨false, ["bad"]⟩ =
      some ⟨[], [pathJoinP optsA.DirectoryPath ⟨false, ["bad"]⟩], true⟩ :=
  checkFile_stat_error_fatal envA optsA refDir 1 ⟨false, ["bad"]⟩ (by decide)

end Htmltest
